import Mathlib

/-!
Shallow embedding of `src/modules/platforms/cpp/odbc/src/connection.cpp`
(Apache Ignite ODBC driver, connection layer): the frame codec
(`Connection.Send`, `Connection.Receive` with the reliable-transfer loops
`SendAll` / `ReceiveAll`), the connection lifecycle
(`Connection.InternalEstablish`, `Connection.Close`), the handshake
(`Connection.MakeRequestHandshake`) and the connection attributes
(`Connection.InternalGetAttribute`, `Connection.InternalSetAttribute`).

The blocking byte-stream socket is modelled by an explicit script: a list of
bytes the peer will deliver plus, per single-shot `socket.Receive` /
`socket.Send` call, the count the socket returns for that call (a value `<= 0`
models an error result, exactly the `res <= 0` test in the source).  Machine
`int32_t` values are modelled as `Int` with explicit two's-complement wrap.
-/

namespace IgniteOdbc

/-- One octet on the wire (an `int8_t` viewed as its unsigned byte value). -/
abbrev Byte := Nat

/-- `static_cast<int32_t>` applied to a non-negative size (`size_t`):
two's-complement wrap into `[-2 ^ 31, 2 ^ 31)`. -/
def toInt32 (n : Nat) : Int :=
  (((n : Int) + 2 ^ 31) % 2 ^ 32) - 2 ^ 31

/-- The four bytes of an `int32_t` header as laid out in memory
(little-endian, the native byte order of the platforms the driver targets);
this is `OdbcProtocolHeader { int32_t len; }` written by `Connection::Send`. -/
def int32ToBytes (v : Int) : List Byte :=
  let u : Nat := (v % 2 ^ 32).toNat
  [u % 256, u / 2 ^ 8 % 256, u / 2 ^ 16 % 256, u / 2 ^ 24 % 256]

/-- Reading an `int32_t` back from the first four bytes of a buffer
(little-endian), as `Connection::Receive` does into `OdbcProtocolHeader hdr`. -/
def int32OfBytes (bs : List Byte) : Int :=
  let u : Nat := (bs.take 4).foldr (fun b acc => acc * 256 + b % 256) 0
  if u < 2 ^ 31 then (u : Int) else (u : Int) - 2 ^ 32

/-- `SqlResult::Type` of the driver. -/
inductive SqlResult where
  | AI_SUCCESS
  | AI_SUCCESS_WITH_INFO
  | AI_ERROR
  | AI_NO_DATA
  deriving DecidableEq, Repr

/-- The `SqlState` codes used by `connection.cpp`. -/
inductive SqlState where
  | S01S00_INVALID_CONNECTION_STRING_ATTRIBUTE
  | S08001_CANNOT_CONNECT
  | S08002_ALREADY_CONNECTED
  | S08003_NOT_CONNECTED
  | S08004_CONNECTION_REJECTED
  | S08S01_LINK_FAILURE
  | SHY000_GENERAL_ERROR
  | SHY001_MEMORY_ALLOCATION
  | SHY092_OPTION_TYPE_OUT_OF_RANGE
  | SHYC00_OPTIONAL_FEATURE_NOT_IMPLEMENTED
  deriving DecidableEq, Repr

/-- Socket input script for the receive direction: `stream` is the sequence of
bytes the peer will deliver, and each entry of `chunks` is the count the next
single-shot `socket.Receive` call reports (clamped to the requested length and
to the data actually available; a value `<= 0`, or an exhausted script, models
the `res <= 0` error case of the source). -/
structure SocketIn where
  stream : List Byte
  chunks : List Int
  deriving DecidableEq, Repr

/-- Result of one `ReceiveAll` run: the bytes obtained, the rest of the socket
script, and whether `Close()` was invoked from inside the loop (`res <= 0`). -/
structure RAOut where
  recd : List Byte
  stream : List Byte
  chunks : List Int
  closed : Bool
  deriving DecidableEq, Repr

/-- The remaining socket input after a `ReceiveAll` run. -/
def RAOut.sock (o : RAOut) : SocketIn :=
  ⟨o.stream, o.chunks⟩

/-- The `while (remain)` loop of `Connection::ReceiveAll`: each iteration asks
the socket for `remain` more bytes; a result `<= 0` closes the connection and
returns the count received so far, otherwise the delivered bytes are appended
and `remain` shrinks. -/
def receiveAllGo (chunks : List Int) (stream : List Byte) (remain : Nat) : RAOut :=
  match remain, chunks with
  | 0, cs => ⟨[], stream, cs, false⟩
  | _ + 1, [] => ⟨[], stream, [], true⟩
  | r + 1, c :: cs =>
    let n : Nat := min c.toNat (min (r + 1) stream.length)
    if n = 0 then
      ⟨[], stream, cs, true⟩
    else
      let out := receiveAllGo cs (stream.drop n) (r + 1 - n)
      ⟨stream.take n ++ out.recd, out.stream, out.chunks, out.closed⟩

/-- `Connection::ReceiveAll(dst, len)` over the socket script. -/
def ReceiveAll (s : SocketIn) (len : Nat) : RAOut :=
  receiveAllGo s.chunks s.stream len

/-- Observable outcome of `Connection::Receive`: the thrown `OdbcError`'s state
(or `none` on success), the caller's `msg` vector after the call, the
`connected` flag after the call, and the remaining socket input. -/
structure RecvOut where
  error : Option SqlState
  msg : List Byte
  connected : Bool
  sock : SocketIn
  deriving DecidableEq, Repr

/-- `Connection::Receive(msg)`: guard on `connected`, `msg.clear()`, read the
4-byte header via `ReceiveAll`, reject a short header and a negative length
(the latter with an explicit `Close()`), return on a zero length, otherwise
`msg.resize(hdr.len)` and read the body; on a short body read the vector is
resized to the count actually received (`msg.resize(received)`) before the
`LinkFailure` error is thrown. -/
def Connection.Receive (connected : Bool) (msg0 : List Byte) (s : SocketIn) : RecvOut :=
  if connected = false then
    ⟨some SqlState.S08003_NOT_CONNECTED, msg0, connected, s⟩
  else
    let hdrOut := ReceiveAll s 4
    if hdrOut.recd.length ≠ 4 then
      ⟨some SqlState.S08S01_LINK_FAILURE, [], connected && !hdrOut.closed, hdrOut.sock⟩
    else
      let len : Int := int32OfBytes hdrOut.recd
      if len < 0 then
        ⟨some SqlState.S08S01_LINK_FAILURE, [], false, hdrOut.sock⟩
      else if len = 0 then
        ⟨none, [], connected && !hdrOut.closed, hdrOut.sock⟩
      else
        let bodyOut := ReceiveAll hdrOut.sock len.toNat
        if bodyOut.recd.length ≠ len.toNat then
          ⟨some SqlState.S08S01_LINK_FAILURE, bodyOut.recd,
            connected && !hdrOut.closed && !bodyOut.closed, bodyOut.sock⟩
        else
          ⟨none, bodyOut.recd, connected && !hdrOut.closed && !bodyOut.closed, bodyOut.sock⟩

/-- The `while (sent != len)` loop of `Connection::SendAll`: `accepts` gives,
per single-shot `socket.Send` call, the count the socket reports (clamped to
the number of bytes still offered; `<= 0`, or an exhausted script, models the
`res <= 0` error case, which closes the connection and returns the count sent
so far).  Returns `(sent, closedDuring, remaining script)`. -/
def sendAllGo (accepts : List Int) (sent len : Nat) : Nat × Bool × List Int :=
  if sent = len then
    (sent, false, accepts)
  else
    match accepts with
    | [] => (sent, true, [])
    | a :: rest =>
      if a ≤ 0 then
        (sent, true, rest)
      else
        sendAllGo rest (sent + min a.toNat (len - sent)) len

/-- `Connection::SendAll(data, len)` over the socket's accept script. -/
def SendAll (accepts : List Int) (len : Nat) : Nat × Bool × List Int :=
  sendAllGo accepts 0 len

/-- What a `Connection::Send` call can throw: an `OdbcError` of its own
(`NotConnected`, `LinkFailure`), the allocation failure raised by
`FixedSizeArray(newLen)` when the wrapped `int32_t` buffer size is negative
(`new int8_t[...]` throws before any socket activity and without closing the
connection), or the unrepresentable case where `newLen` wraps to a
non-negative value smaller than the data (`len + 4 >= 2 ^ 32`): there the
source's `memcpy` overruns the buffer, which a shallow embedding cannot model
further. -/
inductive SendErr where
  | odbc (state : SqlState)
  | badAlloc
  | undefined
  deriving DecidableEq, Repr

/-- Observable outcome of `Connection::Send`: the thrown error (or `none`),
the `connected` flag after the call, the prefix of the framed buffer actually
delivered to the socket, and the rest of the accept script. -/
structure SendOut where
  error : Option SendErr
  connected : Bool
  wire : List Byte
  accepts : List Int
  deriving DecidableEq, Repr

/-- `Connection::Send(data, len)`: guard on `connected`; compute the buffer
size `newLen = static_cast<int32_t>(len + sizeof(OdbcProtocolHeader))`, which
wraps — a negative `newLen` makes `FixedSizeArray(newLen)` throw in
allocation before any byte reaches the socket and before `SendAll` runs, and
a wrapped non-negative `newLen ≠ len + 4` puts the `memcpy` outside the
buffer; otherwise build the framed buffer `hdr.len = static_cast<int32_t>(len)`
followed by the raw payload, push `newLen` bytes of it through `SendAll`, and
throw `LinkFailure` when fewer than `len + sizeof(OdbcProtocolHeader)` bytes
were accepted. -/
def Connection.Send (connected : Bool) (payload : List Byte) (accepts : List Int) : SendOut :=
  if connected = false then
    ⟨some (SendErr.odbc SqlState.S08003_NOT_CONNECTED), connected, [], accepts⟩
  else
    let newLen : Int := toInt32 (payload.length + 4)
    if newLen < 0 then
      ⟨some SendErr.badAlloc, connected, [], accepts⟩
    else if newLen.toNat ≠ payload.length + 4 then
      ⟨some SendErr.undefined, connected, [], accepts⟩
    else
      let msgBuf := int32ToBytes (toInt32 payload.length) ++ payload
      let out := SendAll accepts newLen.toNat
      if out.1 ≠ payload.length + 4 then
        ⟨some (SendErr.odbc SqlState.S08S01_LINK_FAILURE), connected && !out.2.1,
          msgBuf.take out.1, out.2.2⟩
      else
        ⟨none, connected && !out.2.1, msgBuf.take out.1, out.2.2⟩

/-- Modelled from the spec: the `ProtocolVersion` class (its `ToString` and
`IsSupported` members) lives outside this repository slice; a version is
modelled abstractly by its rendered version string and by whether it belongs
to the driver's supported set. -/
structure ProtocolVersion where
  str : String
  supported : Bool
  deriving DecidableEq, Repr

/-- The already-parsed connection configuration captured at establish time
(`config::Configuration`), restricted to the fields `connection.cpp` reads. -/
structure Configuration where
  host : String
  tcpPort : Nat
  protocolVersion : ProtocolVersion
  distributedJoins : Bool
  enforceJoinOrder : Bool
  replicatedOnly : Bool
  collocated : Bool
  lazy : Bool
  deriving DecidableEq, Repr

/-- The `Connection` state touched by the lifecycle operations: the
`connected` flag, the stored member `config`, and the parser's protocol
version (`parser.SetProtocolVersion`). -/
structure Conn where
  connected : Bool
  config : Configuration
  parserVersion : ProtocolVersion
  deriving DecidableEq, Repr

/-- `Connection::Close()`: closes the socket and clears `connected`. -/
def Connection.Close (c : Conn) : Conn :=
  { c with connected := false }

/-- `HandshakeResponse` as read back by the handshake: acceptance flag, the
server-reported error text, and the server's own version
(`rsp.GetCurrentVer()`). -/
structure HandshakeResponse where
  accepted : Bool
  error : String
  currentVer : ProtocolVersion
  deriving DecidableEq, Repr

/-- Outcome of the `SyncMessage(req, rsp)` exchange inside the handshake:
a decoded response, or a thrown `OdbcError` (re-surfaced verbatim), or a
thrown `IgniteError` (mapped to `ConnectionRejected`). -/
inductive SyncOutcome where
  | ok (rsp : HandshakeResponse)
  | odbcErr (state : SqlState) (msg : String)
  | igniteErr (msg : String)
  deriving DecidableEq, Repr

/-- The rejection diagnostic text composed by `Connection::MakeRequestHandshake`
when `rsp.IsAccepted()` is false. -/
def handshakeRejectMessage (rsp : HandshakeResponse) (config : Configuration) : String :=
  "Node rejected handshake message. " ++
    (if rsp.error = "" then "" else "Additional info: " ++ rsp.error ++ " ") ++
    ("Current node Apache Ignite version: " ++ rsp.currentVer.str ++ ", " ++
      "driver protocol version introduced in version: " ++
      config.protocolVersion.str ++ ".")

/-- Outcome of `Connection::MakeRequestHandshake`: the tri-state result, the
status record added (state code and message), and the number of bytes sent on
the socket during the call. -/
structure HsOut where
  res : SqlResult
  diag : Option (SqlState × String)
  sentBytes : Nat
  deriving DecidableEq, Repr

/-- `Connection::MakeRequestHandshake`: read the negotiation parameters from
the stored configuration, reject an unsupported protocol version before any
byte is sent, run `SyncMessage`, and interpret the response.  `syncSentBytes`
is the number of bytes the `SyncMessage` exchange pushes onto the socket (the
serialized request frame; its encoding lives outside this file's scope). -/
def Connection.MakeRequestHandshake (config : Configuration) (sync : SyncOutcome)
    (syncSentBytes : Nat) : HsOut :=
  if config.protocolVersion.supported = false then
    ⟨SqlResult.AI_ERROR,
      some (SqlState.S01S00_INVALID_CONNECTION_STRING_ATTRIBUTE,
        "Protocol version is not supported: " ++ config.protocolVersion.str), 0⟩
  else
    match sync with
    | SyncOutcome.odbcErr st m => ⟨SqlResult.AI_ERROR, some (st, m), syncSentBytes⟩
    | SyncOutcome.igniteErr m =>
      ⟨SqlResult.AI_ERROR, some (SqlState.S08004_CONNECTION_REJECTED, m), syncSentBytes⟩
    | SyncOutcome.ok rsp =>
      if rsp.accepted = false then
        ⟨SqlResult.AI_ERROR,
          some (SqlState.S08004_CONNECTION_REJECTED, handshakeRejectMessage rsp config),
          syncSentBytes⟩
      else
        ⟨SqlResult.AI_SUCCESS, none, syncSentBytes⟩

/-- Outcome of `Connection::InternalEstablish`: the tri-state result, the
connection state after the call, the status record added, the number of bytes
sent on the socket, and whether any socket call (connect, send, receive or
close) happened during the call. -/
structure EstOut where
  res : SqlResult
  conn : Conn
  diag : Option (SqlState × String)
  sentBytes : Nat
  socketTouched : Bool
  deriving DecidableEq, Repr

/-- `Connection::InternalEstablish(cfg)`: the member assignment `config = cfg`
happens first, then the `connected` guard, then `socket.Connect`, then the
handshake; an erroneous handshake closes the socket, a successful one sets the
parser's protocol version.  `connectOk` is the result of `socket.Connect`. -/
def Connection.InternalEstablish (st : Conn) (cfg : Configuration) (connectOk : Bool)
    (sync : SyncOutcome) (syncSentBytes : Nat) : EstOut :=
  let st1 : Conn := { st with config := cfg }
  if st1.connected then
    ⟨SqlResult.AI_ERROR, st1, some (SqlState.S08002_ALREADY_CONNECTED, "Already connected."),
      0, false⟩
  else
    let st2 : Conn := { st1 with connected := connectOk }
    if st2.connected = false then
      ⟨SqlResult.AI_ERROR, st2,
        some (SqlState.S08001_CANNOT_CONNECT, "Failed to establish connection with the host."),
        0, true⟩
    else
      -- the member `config` read by the handshake (and by
      -- `parser.SetProtocolVersion(config.GetProtocolVersion())`) equals `cfg`
      -- here, because of the entry assignment `config = cfg`
      let h := Connection.MakeRequestHandshake cfg sync syncSentBytes
      if h.res = SqlResult.AI_ERROR then
        ⟨SqlResult.AI_ERROR, Connection.Close st2, h.diag, h.sentBytes, true⟩
      else
        ⟨h.res, { st2 with parserVersion := cfg.protocolVersion }, h.diag,
          h.sentBytes, true⟩

/-- `SQL_ATTR_CONNECTION_DEAD` (the connection-liveness attribute id). -/
def SQL_ATTR_CONNECTION_DEAD : Int := 1209

/-- `SQL_CD_TRUE`: the connection is dead. -/
def SQL_CD_TRUE : Int := 1

/-- `SQL_CD_FALSE`: the connection is alive. -/
def SQL_CD_FALSE : Int := 0

/-- `SQL_IS_INTEGER`, stored into `*valueLen`. -/
def SQL_IS_INTEGER : Int := -6

/-- Outcome of `Connection::InternalGetAttribute`: the tri-state result, the
status record added, the value written into the caller's buffer, and the
length written into `*valueLen`. -/
structure GetAttrOut where
  res : SqlResult
  diag : Option (SqlState × String)
  value : Option Int
  valueLen : Option Int
  deriving DecidableEq, Repr

/-- `Connection::InternalGetAttribute(attr, buf, bufLen, valueLen)`:
a null buffer is a general error; `SQL_ATTR_CONNECTION_DEAD` reports
`SQL_CD_FALSE` while connected and `SQL_CD_TRUE` otherwise; every other
attribute id is unsupported. -/
def Connection.InternalGetAttribute (connected : Bool) (attr : Int)
    (bufProvided valueLenProvided : Bool) : GetAttrOut :=
  if bufProvided = false then
    ⟨SqlResult.AI_ERROR, some (SqlState.SHY000_GENERAL_ERROR, "Data buffer is NULL."),
      none, none⟩
  else if attr = SQL_ATTR_CONNECTION_DEAD then
    ⟨SqlResult.AI_SUCCESS, none, some (if connected then SQL_CD_FALSE else SQL_CD_TRUE),
      if valueLenProvided then some SQL_IS_INTEGER else none⟩
  else
    ⟨SqlResult.AI_ERROR,
      some (SqlState.SHYC00_OPTIONAL_FEATURE_NOT_IMPLEMENTED,
        "Specified attribute is not supported."), none, none⟩

/-- `Connection::InternalSetAttribute(attr, value, valueLen)`: the liveness
attribute is read-only (`OptionTypeOutOfRange`); every other attribute id is
unsupported.  The value and its length are never inspected. -/
def Connection.InternalSetAttribute (attr : Int) (value : Int) :
    SqlResult × Option (SqlState × String) :=
  if attr = SQL_ATTR_CONNECTION_DEAD then
    (SqlResult.AI_ERROR, some (SqlState.SHY092_OPTION_TYPE_OUT_OF_RANGE,
      "Attribute is read only."))
  else
    (SqlResult.AI_ERROR, some (SqlState.SHYC00_OPTIONAL_FEATURE_NOT_IMPLEMENTED,
      "Specified attribute is not supported."))

/-- Substring containment on the underlying character lists, used to state
what a diagnostic message must mention. -/
def containsS (m sub : String) : Prop :=
  ∃ a b : List Char, m.data = a ++ sub.data ++ b

/-- The receive loop consumes exactly the bytes it returns: the original
stream is the returned bytes followed by the remaining stream. -/
theorem receiveAllGo_stream_eq :
    ∀ (chunks : List Int) (stream : List Byte) (remain : Nat),
      stream = (receiveAllGo chunks stream remain).recd
        ++ (receiveAllGo chunks stream remain).stream
  | chunks, stream, 0 => by simp [receiveAllGo]
  | [], stream, r + 1 => by simp [receiveAllGo]
  | c :: cs, stream, r + 1 => by
    have ih := receiveAllGo_stream_eq cs
      (stream.drop (min c.toNat (min (r + 1) stream.length)))
      (r + 1 - min c.toNat (min (r + 1) stream.length))
    simp only [receiveAllGo]
    split
    · simp
    · simp only [List.append_assoc]
      rw [← ih]
      exact (List.take_append_drop _ stream).symm

/-- The receive loop never returns more bytes than requested. -/
theorem receiveAllGo_recd_le :
    ∀ (chunks : List Int) (stream : List Byte) (remain : Nat),
      (receiveAllGo chunks stream remain).recd.length ≤ remain
  | chunks, stream, 0 => by simp [receiveAllGo]
  | [], stream, r + 1 => by simp [receiveAllGo]
  | c :: cs, stream, r + 1 => by
    have ih := receiveAllGo_recd_le cs
      (stream.drop (min c.toNat (min (r + 1) stream.length)))
      (r + 1 - min c.toNat (min (r + 1) stream.length))
    simp only [receiveAllGo]
    split
    · simp
    · simp only [List.length_append, List.length_take]
      omega

/-- If the receive loop did not close the connection, it obtained the full
requested count. -/
theorem receiveAllGo_closed_false :
    ∀ (chunks : List Int) (stream : List Byte) (remain : Nat),
      (receiveAllGo chunks stream remain).closed = false →
      (receiveAllGo chunks stream remain).recd.length = remain
  | chunks, stream, 0 => by simp [receiveAllGo]
  | [], stream, r + 1 => by simp [receiveAllGo]
  | c :: cs, stream, r + 1 => by
    intro h
    have ih := receiveAllGo_closed_false cs
      (stream.drop (min c.toNat (min (r + 1) stream.length)))
      (r + 1 - min c.toNat (min (r + 1) stream.length))
    simp only [receiveAllGo] at h ⊢
    split at h
    · simp_all
    · rename_i hn
      rw [if_neg hn]
      simp only [List.length_append, List.length_take]
      have := ih h
      omega

/-- A single generous chunk serves an exact read: when the socket offers at
least `remain` bytes in one shot, the loop returns precisely the first
`remain` bytes of the stream and consumes one chunk. -/
theorem receiveAllGo_exact (c : Int) (cs : List Int) (stream : List Byte) (remain : Nat)
    (h1 : 0 < remain) (h2 : remain ≤ c.toNat) (h3 : remain ≤ stream.length) :
    receiveAllGo (c :: cs) stream remain =
      ⟨stream.take remain, stream.drop remain, cs, false⟩ := by
  obtain ⟨r, rfl⟩ : ∃ r, remain = r + 1 := ⟨remain - 1, by omega⟩
  have hn : min c.toNat (min (r + 1) stream.length) = r + 1 := by omega
  simp only [receiveAllGo, hn]
  simp [receiveAllGo]

/-- If the receive loop closed the connection, it obtained strictly fewer
bytes than requested. -/
theorem receiveAllGo_closed_true :
    ∀ (chunks : List Int) (stream : List Byte) (remain : Nat),
      (receiveAllGo chunks stream remain).closed = true →
      (receiveAllGo chunks stream remain).recd.length < remain
  | chunks, stream, 0 => by simp [receiveAllGo]
  | [], stream, r + 1 => by simp [receiveAllGo]
  | c :: cs, stream, r + 1 => by
    intro h
    have ih := receiveAllGo_closed_true cs
      (stream.drop (min c.toNat (min (r + 1) stream.length)))
      (r + 1 - min c.toNat (min (r + 1) stream.length))
    simp only [receiveAllGo] at h ⊢
    split at h
    · rename_i hn
      rw [if_pos hn]
      simp
    · rename_i hn
      rw [if_neg hn]
      simp only [List.length_append, List.length_take]
      have := ih h
      omega

/-- If the send loop did not close the connection, the full buffer was
accepted. -/
theorem sendAllGo_closed_false (accepts : List Int) :
    ∀ (sent len : Nat), sent ≤ len →
      (sendAllGo accepts sent len).2.1 = false → (sendAllGo accepts sent len).1 = len := by
  induction accepts with
  | nil =>
    intro sent len hle h
    by_cases hs : sent = len
    · simp [sendAllGo, hs]
    · simp [sendAllGo, hs] at h
  | cons a rest ih =>
    intro sent len hle h
    by_cases hs : sent = len
    · simp [sendAllGo, hs]
    · by_cases ha : a ≤ 0
      · simp [sendAllGo, hs, ha] at h
      · simp only [sendAllGo, if_neg hs, if_neg ha] at h ⊢
        exact ih _ _ (by omega) h

/-- The header serializer always produces four bytes. -/
theorem int32ToBytes_length (v : Int) : (int32ToBytes v).length = 4 := rfl

/-- The `int32_t` cast is the identity on sizes below `2 ^ 31`. -/
theorem toInt32_of_lt (n : Nat) (h : n < 2 ^ 31) : toInt32 n = n := by
  simp only [toInt32]
  omega

/-- Serializing a size below `2 ^ 31` and reading it back yields the size. -/
theorem int32OfBytes_int32ToBytes (n : Nat) (h : n < 2 ^ 31) :
    int32OfBytes (int32ToBytes ((n : Int))) = n := by
  simp only [int32ToBytes, int32OfBytes, List.take, List.foldr]
  have h1 : (((n : Int)) % 2 ^ 32).toNat = n := by omega
  rw [h1]
  split
  · rename_i hlt
    omega
  · rename_i hge
    omega

/-- Decoding only looks at the first four bytes. -/
theorem int32OfBytes_append (hdr rest : List Byte) (h : hdr.length = 4) :
    int32OfBytes (hdr ++ rest) = int32OfBytes hdr := by
  simp only [int32OfBytes]
  rw [List.take_append_of_le_length (by omega), List.take_of_length_le (by omega)]

/-- `ReceiveAll` consumes exactly the bytes it returns. -/
theorem ReceiveAll_stream_eq (s : SocketIn) (len : Nat) :
    s.stream = (ReceiveAll s len).recd ++ (ReceiveAll s len).stream :=
  receiveAllGo_stream_eq s.chunks s.stream len

/-- A `ReceiveAll` run that did not close the connection got everything. -/
theorem ReceiveAll_closed_false (s : SocketIn) (len : Nat) :
    (ReceiveAll s len).closed = false → (ReceiveAll s len).recd.length = len :=
  receiveAllGo_closed_false s.chunks s.stream len

/-- A `ReceiveAll` run that closed the connection came up short. -/
theorem ReceiveAll_closed_true (s : SocketIn) (len : Nat) :
    (ReceiveAll s len).closed = true → (ReceiveAll s len).recd.length < len :=
  receiveAllGo_closed_true s.chunks s.stream len

/-- A full `ReceiveAll` read leaves the stream at its suffix past `len`. -/
theorem ReceiveAll_stream_drop (s : SocketIn) (len : Nat)
    (h : (ReceiveAll s len).recd.length = len) :
    (ReceiveAll s len).stream = s.stream.drop len := by
  have he := ReceiveAll_stream_eq s len
  calc (ReceiveAll s len).stream
      = ((ReceiveAll s len).recd ++ (ReceiveAll s len).stream).drop
          (ReceiveAll s len).recd.length := (List.drop_left _ _).symm
    _ = s.stream.drop len := by rw [← he, h]

/-- A full `ReceiveAll` read did not close the connection. -/
theorem ReceiveAll_full_not_closed (s : SocketIn) (len : Nat)
    (h : (ReceiveAll s len).recd.length = len) :
    (ReceiveAll s len).closed = false := by
  cases hc : (ReceiveAll s len).closed
  · rfl
  · have := ReceiveAll_closed_true s len hc
    omega

/-- C4: a `Receive()` on a connected connection that reads a four-byte header
whose signed 32-bit length is negative closes the connection and fails with
`LinkFailure`; the `connected` flag is false afterwards and no body bytes are
read (exactly the four header bytes are consumed from the stream). -/
theorem receive_negative_length (m0 : List Byte) (s : SocketIn)
    (hhdr : (ReceiveAll s 4).recd.length = 4)
    (hneg : int32OfBytes (ReceiveAll s 4).recd < 0) :
    (Connection.Receive true m0 s).error = some SqlState.S08S01_LINK_FAILURE ∧
    (Connection.Receive true m0 s).connected = false ∧
    (Connection.Receive true m0 s).sock = (ReceiveAll s 4).sock ∧
    (Connection.Receive true m0 s).sock.stream = s.stream.drop 4 := by
  have hdrop := ReceiveAll_stream_drop s 4 hhdr
  simp only [Connection.Receive]
  rw [if_neg (by decide : ¬(true = false))]
  rw [if_neg (by omega : ¬((ReceiveAll s 4).recd.length ≠ 4))]
  rw [if_pos hneg]
  exact ⟨rfl, rfl, rfl, hdrop⟩

/-- C4 witness: a wire header of `0xFFFFFFFF` (length `-1`) is rejected. -/
theorem receive_negative_length_witness :
    (ReceiveAll ⟨[255, 255, 255, 255], [4]⟩ 4).recd.length = 4 ∧
    int32OfBytes (ReceiveAll ⟨[255, 255, 255, 255], [4]⟩ 4).recd < 0 ∧
    ((Connection.Receive true [] ⟨[255, 255, 255, 255], [4]⟩).error
        = some SqlState.S08S01_LINK_FAILURE ∧
      (Connection.Receive true [] ⟨[255, 255, 255, 255], [4]⟩).connected = false ∧
      (Connection.Receive true [] ⟨[255, 255, 255, 255], [4]⟩).sock
        = (ReceiveAll ⟨[255, 255, 255, 255], [4]⟩ 4).sock ∧
      (Connection.Receive true [] ⟨[255, 255, 255, 255], [4]⟩).sock.stream
        = ([255, 255, 255, 255] : List Byte).drop 4) :=
  ⟨by decide, by decide,
    receive_negative_length [] ⟨[255, 255, 255, 255], [4]⟩ (by decide) (by decide)⟩

/-- C5: a `Receive()` on a connected connection that reads a header whose
length field is zero succeeds with an empty payload, leaves the connection
connected, and performs no further socket read: exactly the four header bytes
are consumed. -/
theorem receive_zero_length (m0 : List Byte) (s : SocketIn)
    (hhdr : (ReceiveAll s 4).recd.length = 4)
    (hzero : int32OfBytes (ReceiveAll s 4).recd = 0) :
    (Connection.Receive true m0 s).error = none ∧
    (Connection.Receive true m0 s).msg = [] ∧
    (Connection.Receive true m0 s).connected = true ∧
    (Connection.Receive true m0 s).sock = (ReceiveAll s 4).sock ∧
    (Connection.Receive true m0 s).sock.stream = s.stream.drop 4 := by
  have hdrop := ReceiveAll_stream_drop s 4 hhdr
  have hcl := ReceiveAll_full_not_closed s 4 hhdr
  simp only [Connection.Receive]
  rw [if_neg (by decide : ¬(true = false))]
  rw [if_neg (by omega : ¬((ReceiveAll s 4).recd.length ≠ 4))]
  rw [if_neg (by omega : ¬(int32OfBytes (ReceiveAll s 4).recd < 0))]
  rw [if_pos hzero]
  refine ⟨rfl, rfl, by simp [hcl], rfl, hdrop⟩

/-- C5 witness: a zero header in front of a pending byte `55` succeeds empty
and leaves `55` unread on the stream. -/
theorem receive_zero_length_witness :
    (ReceiveAll ⟨[0, 0, 0, 0, 55], [4, 9]⟩ 4).recd.length = 4 ∧
    int32OfBytes (ReceiveAll ⟨[0, 0, 0, 0, 55], [4, 9]⟩ 4).recd = 0 ∧
    ((Connection.Receive true [3] ⟨[0, 0, 0, 0, 55], [4, 9]⟩).error = none ∧
      (Connection.Receive true [3] ⟨[0, 0, 0, 0, 55], [4, 9]⟩).msg = [] ∧
      (Connection.Receive true [3] ⟨[0, 0, 0, 0, 55], [4, 9]⟩).connected = true ∧
      (Connection.Receive true [3] ⟨[0, 0, 0, 0, 55], [4, 9]⟩).sock
        = (ReceiveAll ⟨[0, 0, 0, 0, 55], [4, 9]⟩ 4).sock ∧
      (Connection.Receive true [3] ⟨[0, 0, 0, 0, 55], [4, 9]⟩).sock.stream
        = ([0, 0, 0, 0, 55] : List Byte).drop 4) :=
  ⟨by decide, by decide,
    receive_zero_length [3] ⟨[0, 0, 0, 0, 55], [4, 9]⟩ (by decide) (by decide)⟩

/-- C10: `Receive()` on a connected connection clears the caller's vector
before any socket read, so after a short header read (which fails with
`LinkFailure`) and after a zero-length frame (which succeeds) the output
vector is empty whatever it contained before the call. -/
theorem receive_clears_buffer (m0 : List Byte) (s : SocketIn) :
    ((ReceiveAll s 4).recd.length ≠ 4 →
      (Connection.Receive true m0 s).msg = [] ∧
      (Connection.Receive true m0 s).error = some SqlState.S08S01_LINK_FAILURE) ∧
    ((ReceiveAll s 4).recd.length = 4 → int32OfBytes (ReceiveAll s 4).recd = 0 →
      (Connection.Receive true m0 s).msg = [] ∧
      (Connection.Receive true m0 s).error = none) := by
  constructor
  · intro hshort
    simp only [Connection.Receive]
    rw [if_neg (by decide : ¬(true = false))]
    rw [if_pos hshort]
    exact ⟨rfl, rfl⟩
  · intro hhdr hzero
    simp only [Connection.Receive]
    rw [if_neg (by decide : ¬(true = false))]
    rw [if_neg (by omega : ¬((ReceiveAll s 4).recd.length ≠ 4))]
    rw [if_neg (by omega : ¬(int32OfBytes (ReceiveAll s 4).recd < 0))]
    rw [if_pos hzero]
    exact ⟨rfl, rfl⟩

/-- C10 witness: a stale buffer `[9, 9]` is cleared both on a short header
read (stream ends after two bytes) and on a zero-length frame. -/
theorem receive_clears_buffer_witness :
    ((ReceiveAll ⟨[1, 2], [2, 0]⟩ 4).recd.length ≠ 4 →
      (Connection.Receive true [9, 9] ⟨[1, 2], [2, 0]⟩).msg = [] ∧
      (Connection.Receive true [9, 9] ⟨[1, 2], [2, 0]⟩).error
        = some SqlState.S08S01_LINK_FAILURE) ∧
    ((ReceiveAll ⟨[1, 2], [2, 0]⟩ 4).recd.length = 4 →
      int32OfBytes (ReceiveAll ⟨[1, 2], [2, 0]⟩ 4).recd = 0 →
      (Connection.Receive true [9, 9] ⟨[1, 2], [2, 0]⟩).msg = [] ∧
      (Connection.Receive true [9, 9] ⟨[1, 2], [2, 0]⟩).error = none) :=
  receive_clears_buffer [9, 9] ⟨[1, 2], [2, 0]⟩

/-- C3 (amended): a `Receive()` whose body read comes up short closes the
connection and fails with `LinkFailure`, and the caller's output vector is
resized to exactly the partial bytes already received — the partial prefix is
exposed to the caller, not discarded. -/
theorem receive_short_body (m0 : List Byte) (s : SocketIn)
    (hhdr : (ReceiveAll s 4).recd.length = 4)
    (hpos : 0 < int32OfBytes (ReceiveAll s 4).recd)
    (hshort :
      (ReceiveAll (ReceiveAll s 4).sock
          (int32OfBytes (ReceiveAll s 4).recd).toNat).recd.length
        ≠ (int32OfBytes (ReceiveAll s 4).recd).toNat) :
    (Connection.Receive true m0 s).error = some SqlState.S08S01_LINK_FAILURE ∧
    (Connection.Receive true m0 s).connected = false ∧
    (Connection.Receive true m0 s).msg
      = (ReceiveAll (ReceiveAll s 4).sock
          (int32OfBytes (ReceiveAll s 4).recd).toNat).recd := by
  have hbodycl :
      (ReceiveAll (ReceiveAll s 4).sock
        (int32OfBytes (ReceiveAll s 4).recd).toNat).closed = true := by
    cases hc : (ReceiveAll (ReceiveAll s 4).sock
        (int32OfBytes (ReceiveAll s 4).recd).toNat).closed
    · have := ReceiveAll_closed_false (ReceiveAll s 4).sock
        (int32OfBytes (ReceiveAll s 4).recd).toNat hc
      omega
    · rfl
  simp only [Connection.Receive]
  rw [if_neg (by decide : ¬(true = false))]
  rw [if_neg (by omega : ¬((ReceiveAll s 4).recd.length ≠ 4))]
  rw [if_neg (by omega : ¬(int32OfBytes (ReceiveAll s 4).recd < 0))]
  rw [if_neg (by omega : ¬(int32OfBytes (ReceiveAll s 4).recd = 0))]
  rw [if_pos hshort]
  exact ⟨rfl, by simp [hbodycl], rfl⟩

/-- C3 witness: header announces two body bytes, the socket delivers one byte
`99` and then errors; the call fails with `LinkFailure`, the connection is
closed, and the buffer holds exactly the partial byte. -/
theorem receive_short_body_witness :
    (ReceiveAll ⟨[2, 0, 0, 0, 99], [4, 1, -1]⟩ 4).recd.length = 4 ∧
    0 < int32OfBytes (ReceiveAll ⟨[2, 0, 0, 0, 99], [4, 1, -1]⟩ 4).recd ∧
    ((Connection.Receive true [] ⟨[2, 0, 0, 0, 99], [4, 1, -1]⟩).error
        = some SqlState.S08S01_LINK_FAILURE ∧
      (Connection.Receive true [] ⟨[2, 0, 0, 0, 99], [4, 1, -1]⟩).connected = false ∧
      (Connection.Receive true [] ⟨[2, 0, 0, 0, 99], [4, 1, -1]⟩).msg
        = (ReceiveAll (ReceiveAll ⟨[2, 0, 0, 0, 99], [4, 1, -1]⟩ 4).sock
            (int32OfBytes (ReceiveAll ⟨[2, 0, 0, 0, 99], [4, 1, -1]⟩ 4).recd).toNat).recd) :=
  ⟨by decide, by decide,
    receive_short_body [] ⟨[2, 0, 0, 0, 99], [4, 1, -1]⟩ (by decide) (by decide) (by decide)⟩

/-- A single sufficiently large accepted chunk sends the whole buffer. -/
theorem sendAllGo_single (a : Int) (len : Nat) (h1 : 0 < len) (h2 : len ≤ a.toNat) :
    sendAllGo [a] 0 len = (len, false, []) := by
  have ha : ¬(a ≤ 0) := by omega
  have hmin : min a.toNat (len - 0) = len := by omega
  rw [sendAllGo]
  rw [if_neg (show ¬(0 = len) by omega)]
  simp only [if_neg ha, hmin]
  rw [sendAllGo]
  rw [if_pos (show 0 + len = len by omega)]
  simp

/-- C6: a `Send(p)` on a connected connection whose framed buffer is
representable (`len + 4 < 2 ^ 31`, so that the buffer is built and the
reliable-send primitive actually runs) in which that primitive accepts fewer
bytes than the full header-plus-payload buffer fails with `LinkFailure` and
leaves the connection closed, and every subsequent `Send` on that connection
fails with `NotConnected`. -/
theorem send_short_write (p : List Byte) (accepts : List Int)
    (hlen : p.length + 4 < 2 ^ 31)
    (hshort : (SendAll accepts (p.length + 4)).1 < p.length + 4) :
    (Connection.Send true p accepts).error
      = some (SendErr.odbc SqlState.S08S01_LINK_FAILURE) ∧
    (Connection.Send true p accepts).connected = false ∧
    ∀ (p2 : List Byte) (a2 : List Int),
      (Connection.Send (Connection.Send true p accepts).connected p2 a2).error
        = some (SendErr.odbc SqlState.S08003_NOT_CONNECTED) := by
  have hnl0 : ¬(toInt32 (p.length + 4) < 0) := by
    simp only [toInt32]
    omega
  have hnl1 : (toInt32 (p.length + 4)).toNat = p.length + 4 := by
    simp only [toInt32]
    omega
  have hcl : (SendAll accepts (p.length + 4)).2.1 = true := by
    cases hc : (SendAll accepts (p.length + 4)).2.1
    · exfalso
      have hfull := sendAllGo_closed_false accepts 0 (p.length + 4) (Nat.zero_le _)
        (by simpa [SendAll] using hc)
      have hfull' : (SendAll accepts (p.length + 4)).1 = p.length + 4 := by
        simpa [SendAll] using hfull
      omega
    · rfl
  have herr : (Connection.Send true p accepts).error
      = some (SendErr.odbc SqlState.S08S01_LINK_FAILURE) := by
    simp only [Connection.Send]
    rw [if_neg (by decide : ¬(true = false))]
    rw [if_neg hnl0]
    rw [hnl1]
    rw [if_neg (show ¬(p.length + 4 ≠ p.length + 4) by omega)]
    rw [if_pos (show (SendAll accepts (p.length + 4)).1 ≠ p.length + 4 by omega)]
  have hconn : (Connection.Send true p accepts).connected = false := by
    simp only [Connection.Send]
    rw [if_neg (by decide : ¬(true = false))]
    rw [if_neg hnl0]
    rw [hnl1]
    rw [if_neg (show ¬(p.length + 4 ≠ p.length + 4) by omega)]
    rw [if_pos (show (SendAll accepts (p.length + 4)).1 ≠ p.length + 4 by omega)]
    show (true && !(SendAll accepts (p.length + 4)).2.1) = false
    rw [hcl]
    rfl
  refine ⟨herr, hconn, ?_⟩
  intro p2 a2
  rw [hconn]
  simp [Connection.Send]

/-- C6 witness: a three-byte payload framed into seven bytes, of which the
socket accepts three before erroring. -/
theorem send_short_write_witness :
    ([7, 7, 7] : List Byte).length + 4 < 2 ^ 31 ∧
    (SendAll [3, 0] (([7, 7, 7] : List Byte).length + 4)).1
      < ([7, 7, 7] : List Byte).length + 4 ∧
    ((Connection.Send true [7, 7, 7] [3, 0]).error
        = some (SendErr.odbc SqlState.S08S01_LINK_FAILURE) ∧
      (Connection.Send true [7, 7, 7] [3, 0]).connected = false ∧
      ∀ (p2 : List Byte) (a2 : List Int),
        (Connection.Send (Connection.Send true [7, 7, 7] [3, 0]).connected p2 a2).error
          = some (SendErr.odbc SqlState.S08003_NOT_CONNECTED)) :=
  ⟨by decide, by decide, send_short_write [7, 7, 7] [3, 0] (by decide) (by decide)⟩

/-- C3 counterexample: the claim says the partial body bytes are discarded and
the caller's buffer does not contain them; on this input the buffer holds
exactly the partial byte `99` after the failing call. -/
theorem receive_short_body_counterexample :
    (Connection.Receive true [] ⟨[2, 0, 0, 0, 99], [4, 1, -2]⟩).error
      = some SqlState.S08S01_LINK_FAILURE ∧
    (Connection.Receive true [] ⟨[2, 0, 0, 0, 99], [4, 1, -2]⟩).connected = false ∧
    (Connection.Receive true [] ⟨[2, 0, 0, 0, 99], [4, 1, -2]⟩).msg = [99] := by
  decide

/-- C1 (amended): for every payload with `len + 4 < 2 ^ 31` (so that the
`int32_t` buffer size does not wrap), `Send` on a connected connection
succeeds and writes a four-byte signed 32-bit header that decodes to the
payload length followed by the raw payload bytes, and feeding those wire
bytes to `Receive` on a connected connection yields back exactly the payload.
(From `len = 2 ^ 31 - 4` on, `newLen = static_cast<int32_t>(len + 4)` is
negative and `Send` already fails constructing the buffer.) -/
theorem frame_roundtrip (p m0 : List Byte) (hlen : p.length + 4 < 2 ^ 31) :
    (Connection.Send true p [(p.length : Int) + 4]).error = none ∧
    (Connection.Send true p [(p.length : Int) + 4]).wire
      = int32ToBytes ((p.length : Int)) ++ p ∧
    int32OfBytes (Connection.Send true p [(p.length : Int) + 4]).wire = (p.length : Int) ∧
    (Connection.Receive true m0
      ⟨(Connection.Send true p [(p.length : Int) + 4]).wire, [4, (p.length : Int)]⟩).error
      = none ∧
    (Connection.Receive true m0
      ⟨(Connection.Send true p [(p.length : Int) + 4]).wire, [4, (p.length : Int)]⟩).msg
      = p := by
  have htoi : toInt32 p.length = (p.length : Int) := toInt32_of_lt p.length (by omega)
  have hdrlen : (int32ToBytes ((p.length : Int))).length = 4 := int32ToBytes_length _
  have hbuf : (int32ToBytes ((p.length : Int)) ++ p).length = 4 + p.length := by
    rw [List.length_append, hdrlen]
  have hnl0 : ¬(toInt32 (p.length + 4) < 0) := by
    simp only [toInt32]
    omega
  have hnl1 : (toInt32 (p.length + 4)).toNat = p.length + 4 := by
    simp only [toInt32]
    omega
  have hsa : SendAll [(p.length : Int) + 4] (p.length + 4)
      = (p.length + 4, false, []) :=
    sendAllGo_single ((p.length : Int) + 4) _ (by omega) (by omega)
  have hsa1 : (SendAll [(p.length : Int) + 4] (p.length + 4)).1 = p.length + 4 := by
    rw [hsa]
  have hsa21 : (SendAll [(p.length : Int) + 4] (p.length + 4)).2.1 = false := by rw [hsa]
  have hsa22 : (SendAll [(p.length : Int) + 4] (p.length + 4)).2.2 = [] := by rw [hsa]
  have hsend : Connection.Send true p [(p.length : Int) + 4]
      = ⟨none, true, int32ToBytes ((p.length : Int)) ++ p, []⟩ := by
    simp only [Connection.Send, htoi]
    rw [if_neg (by decide : ¬(true = false))]
    rw [if_neg hnl0]
    rw [hnl1]
    rw [if_neg (show ¬(p.length + 4 ≠ p.length + 4) by omega)]
    rw [hsa1, hsa21, hsa22]
    rw [if_neg (show ¬(p.length + 4 ≠ p.length + 4) by omega)]
    rw [List.take_of_length_le
      (show (int32ToBytes ((p.length : Int)) ++ p).length ≤ p.length + 4 by omega)]
    rfl
  have herr : (Connection.Send true p [(p.length : Int) + 4]).error = none := by rw [hsend]
  have hw : (Connection.Send true p [(p.length : Int) + 4]).wire
      = int32ToBytes ((p.length : Int)) ++ p := by rw [hsend]
  have hdec : int32OfBytes (int32ToBytes ((p.length : Int))) = (p.length : Int) :=
    int32OfBytes_int32ToBytes p.length (by omega)
  have hra : ReceiveAll ⟨int32ToBytes ((p.length : Int)) ++ p, [4, (p.length : Int)]⟩ 4
      = ⟨int32ToBytes ((p.length : Int)), p, [(p.length : Int)], false⟩ := by
    have he := receiveAllGo_exact 4 [(p.length : Int)]
      (int32ToBytes ((p.length : Int)) ++ p) 4 (by omega) (by decide) (by omega)
    rw [show ReceiveAll ⟨int32ToBytes ((p.length : Int)) ++ p, [4, (p.length : Int)]⟩ 4
      = receiveAllGo [4, (p.length : Int)] (int32ToBytes ((p.length : Int)) ++ p) 4 from rfl]
    rw [he, List.take_left' hdrlen, List.drop_left' hdrlen]
  have hra_recd :
      (ReceiveAll ⟨int32ToBytes ((p.length : Int)) ++ p, [4, (p.length : Int)]⟩ 4).recd
      = int32ToBytes ((p.length : Int)) := by rw [hra]
  have hra_sock :
      (ReceiveAll ⟨int32ToBytes ((p.length : Int)) ++ p, [4, (p.length : Int)]⟩ 4).sock
      = ⟨p, [(p.length : Int)]⟩ := by
    rw [hra]
    rfl
  have hrem : (Connection.Receive true m0
      ⟨int32ToBytes ((p.length : Int)) ++ p, [4, (p.length : Int)]⟩).error = none ∧
      (Connection.Receive true m0
        ⟨int32ToBytes ((p.length : Int)) ++ p, [4, (p.length : Int)]⟩).msg = p := by
    simp only [Connection.Receive]
    rw [if_neg (by decide : ¬(true = false))]
    rw [hra_recd, hra_sock]
    rw [if_neg (show ¬((int32ToBytes ((p.length : Int))).length ≠ 4) by omega)]
    rw [hdec]
    rw [if_neg (show ¬((p.length : Int) < 0) by omega)]
    rcases Nat.eq_zero_or_pos p.length with hp0 | hppos
    · have hpnil : p = [] := List.length_eq_zero.mp hp0
      rw [if_pos (show (p.length : Int) = 0 by omega)]
      exact ⟨rfl, hpnil.symm⟩
    · rw [if_neg (show ¬((p.length : Int) = 0) by omega)]
      rw [Int.toNat_natCast]
      have hbody : ReceiveAll ⟨p, [(p.length : Int)]⟩ p.length = ⟨p, [], [], false⟩ := by
        have he2 := receiveAllGo_exact ((p.length : Int)) [] p p.length hppos
          (by omega) (le_refl _)
        rw [show ReceiveAll ⟨p, [(p.length : Int)]⟩ p.length
          = receiveAllGo [(p.length : Int)] p p.length from rfl]
        rw [he2, List.take_length, List.drop_length]
      have hbody_recd : (ReceiveAll ⟨p, [(p.length : Int)]⟩ p.length).recd = p := by
        rw [hbody]
      have hbody_closed : (ReceiveAll ⟨p, [(p.length : Int)]⟩ p.length).closed = false := by
        rw [hbody]
      rw [hbody_recd, hbody_closed]
      rw [if_neg (show ¬(p.length ≠ p.length) by omega)]
      exact ⟨rfl, rfl⟩
  refine ⟨herr, hw, ?_, ?_, ?_⟩
  · rw [hw, int32OfBytes_append _ _ hdrlen, hdec]
  · rw [hw]
    exact hrem.1
  · rw [hw]
    exact hrem.2

/-- C1 witness: the two-byte payload `[10, 20]` round-trips through the frame
codec. -/
theorem frame_roundtrip_witness :
    (([10, 20] : List Byte)).length + 4 < 2 ^ 31 ∧
    ((Connection.Send true [10, 20] [((([10, 20] : List Byte)).length : Int) + 4]).error
        = none ∧
      (Connection.Send true [10, 20] [((([10, 20] : List Byte)).length : Int) + 4]).wire
        = int32ToBytes (((([10, 20] : List Byte)).length : Int)) ++ [10, 20] ∧
      int32OfBytes (Connection.Send true [10, 20]
          [((([10, 20] : List Byte)).length : Int) + 4]).wire
        = ((([10, 20] : List Byte)).length : Int) ∧
      (Connection.Receive true [1]
        ⟨(Connection.Send true [10, 20] [((([10, 20] : List Byte)).length : Int) + 4]).wire,
          [4, ((([10, 20] : List Byte)).length : Int)]⟩).error = none ∧
      (Connection.Receive true [1]
        ⟨(Connection.Send true [10, 20] [((([10, 20] : List Byte)).length : Int) + 4]).wire,
          [4, ((([10, 20] : List Byte)).length : Int)]⟩).msg = [10, 20]) :=
  ⟨by decide, frame_roundtrip [10, 20] [1] (by decide)⟩

/-- C1 counterexample: at payload length `2 ^ 31 - 4` the buffer size
`newLen = static_cast<int32_t>(len + 4)` wraps to a negative value, so `Send`
fails in the `FixedSizeArray(newLen)` allocation before writing any byte to
the socket (and without closing the connection); the wire carries nothing, so
`Receive` fails with `LinkFailure` instead of yielding the payload back — the
round trip does not hold for every payload. -/
theorem frame_roundtrip_counterexample :
    (Connection.Send true (List.replicate (2 ^ 31 - 4) 0) [(2 ^ 31 : Int)]).error
      = some SendErr.badAlloc ∧
    (Connection.Send true (List.replicate (2 ^ 31 - 4) 0) [(2 ^ 31 : Int)]).connected
      = true ∧
    (Connection.Send true (List.replicate (2 ^ 31 - 4) 0) [(2 ^ 31 : Int)]).wire = [] ∧
    (Connection.Receive true []
      ⟨(Connection.Send true (List.replicate (2 ^ 31 - 4) 0) [(2 ^ 31 : Int)]).wire,
        [4]⟩).error = some SqlState.S08S01_LINK_FAILURE ∧
    (Connection.Receive true []
      ⟨(Connection.Send true (List.replicate (2 ^ 31 - 4) 0) [(2 ^ 31 : Int)]).wire,
        [4]⟩).msg ≠ List.replicate (2 ^ 31 - 4) 0 := by
  have hplen : (List.replicate (2 ^ 31 - 4) (0 : Byte)).length = 2 ^ 31 - 4 :=
    List.length_replicate _ _
  have hneg : toInt32 (2 ^ 31 - 4 + 4) < 0 := by
    simp only [toInt32]
    omega
  have hsend : Connection.Send true (List.replicate (2 ^ 31 - 4) 0) [(2 ^ 31 : Int)]
      = ⟨some SendErr.badAlloc, true, [], [(2 ^ 31 : Int)]⟩ := by
    simp only [Connection.Send, hplen]
    rw [if_neg (by decide : ¬(true = false))]
    rw [if_pos hneg]
  have herr : (Connection.Send true (List.replicate (2 ^ 31 - 4) 0)
      [(2 ^ 31 : Int)]).error = some SendErr.badAlloc := by rw [hsend]
  have hconn : (Connection.Send true (List.replicate (2 ^ 31 - 4) 0)
      [(2 ^ 31 : Int)]).connected = true := by rw [hsend]
  have hw : (Connection.Send true (List.replicate (2 ^ 31 - 4) 0)
      [(2 ^ 31 : Int)]).wire = [] := by rw [hsend]
  have hPnil : List.replicate (2 ^ 31 - 4) (0 : Byte) ≠ [] := by
    intro h
    have hc := congrArg List.length h
    rw [hplen] at hc
    simp only [List.length_nil] at hc
    omega
  have hrecv : (Connection.Receive true [] ⟨[], [4]⟩).error
      = some SqlState.S08S01_LINK_FAILURE ∧
      (Connection.Receive true [] ⟨[], [4]⟩).msg = [] := by decide
  refine ⟨herr, hconn, hw, ?_, ?_⟩
  · rw [hw]
    exact hrecv.1
  · rw [hw, hrecv.2]
    exact Ne.symm hPnil

/-- C2 (amended): a second `Establish` while already Connected fails with
`AlreadyConnected` and leaves the `connected` flag, the parser's negotiated
protocol version and the socket untouched, and sends nothing — but the stored
configuration member is overwritten with the new configuration argument by
the `config = cfg` assignment that precedes the guard. -/
theorem establish_already_connected (st : Conn) (cfg : Configuration) (connectOk : Bool)
    (sync : SyncOutcome) (n : Nat) (hconn : st.connected = true) :
    (Connection.InternalEstablish st cfg connectOk sync n).res = SqlResult.AI_ERROR ∧
    (Connection.InternalEstablish st cfg connectOk sync n).diag
      = some (SqlState.S08002_ALREADY_CONNECTED, "Already connected.") ∧
    (Connection.InternalEstablish st cfg connectOk sync n).conn.connected = st.connected ∧
    (Connection.InternalEstablish st cfg connectOk sync n).conn.parserVersion
      = st.parserVersion ∧
    (Connection.InternalEstablish st cfg connectOk sync n).conn.config = cfg ∧
    (Connection.InternalEstablish st cfg connectOk sync n).sentBytes = 0 ∧
    (Connection.InternalEstablish st cfg connectOk sync n).socketTouched = false := by
  have h1 : ({ st with config := cfg } : Conn).connected = true := hconn
  simp only [Connection.InternalEstablish]
  rw [if_pos h1]
  exact ⟨rfl, rfl, rfl, rfl, rfl, rfl, rfl⟩

/-- C2 witness: a connected session with configuration `host1` receives a
second establish carrying `host2`. -/
theorem establish_already_connected_witness :
    (⟨true, ⟨"host1", 10800, ⟨"1.0.0", true⟩, false, false, false, false, false⟩,
        ⟨"1.0.0", true⟩⟩ : Conn).connected = true ∧
    ((Connection.InternalEstablish
        ⟨true, ⟨"host1", 10800, ⟨"1.0.0", true⟩, false, false, false, false, false⟩,
          ⟨"1.0.0", true⟩⟩
        ⟨"host2", 10801, ⟨"2.0.0", true⟩, true, true, true, true, true⟩
        false (SyncOutcome.igniteErr "boom") 0).res = SqlResult.AI_ERROR ∧
      (Connection.InternalEstablish
        ⟨true, ⟨"host1", 10800, ⟨"1.0.0", true⟩, false, false, false, false, false⟩,
          ⟨"1.0.0", true⟩⟩
        ⟨"host2", 10801, ⟨"2.0.0", true⟩, true, true, true, true, true⟩
        false (SyncOutcome.igniteErr "boom") 0).diag
        = some (SqlState.S08002_ALREADY_CONNECTED, "Already connected.") ∧
      (Connection.InternalEstablish
        ⟨true, ⟨"host1", 10800, ⟨"1.0.0", true⟩, false, false, false, false, false⟩,
          ⟨"1.0.0", true⟩⟩
        ⟨"host2", 10801, ⟨"2.0.0", true⟩, true, true, true, true, true⟩
        false (SyncOutcome.igniteErr "boom") 0).conn.connected
        = (⟨true, ⟨"host1", 10800, ⟨"1.0.0", true⟩, false, false, false, false, false⟩,
            ⟨"1.0.0", true⟩⟩ : Conn).connected ∧
      (Connection.InternalEstablish
        ⟨true, ⟨"host1", 10800, ⟨"1.0.0", true⟩, false, false, false, false, false⟩,
          ⟨"1.0.0", true⟩⟩
        ⟨"host2", 10801, ⟨"2.0.0", true⟩, true, true, true, true, true⟩
        false (SyncOutcome.igniteErr "boom") 0).conn.parserVersion
        = (⟨true, ⟨"host1", 10800, ⟨"1.0.0", true⟩, false, false, false, false, false⟩,
            ⟨"1.0.0", true⟩⟩ : Conn).parserVersion ∧
      (Connection.InternalEstablish
        ⟨true, ⟨"host1", 10800, ⟨"1.0.0", true⟩, false, false, false, false, false⟩,
          ⟨"1.0.0", true⟩⟩
        ⟨"host2", 10801, ⟨"2.0.0", true⟩, true, true, true, true, true⟩
        false (SyncOutcome.igniteErr "boom") 0).conn.config
        = ⟨"host2", 10801, ⟨"2.0.0", true⟩, true, true, true, true, true⟩ ∧
      (Connection.InternalEstablish
        ⟨true, ⟨"host1", 10800, ⟨"1.0.0", true⟩, false, false, false, false, false⟩,
          ⟨"1.0.0", true⟩⟩
        ⟨"host2", 10801, ⟨"2.0.0", true⟩, true, true, true, true, true⟩
        false (SyncOutcome.igniteErr "boom") 0).sentBytes = 0 ∧
      (Connection.InternalEstablish
        ⟨true, ⟨"host1", 10800, ⟨"1.0.0", true⟩, false, false, false, false, false⟩,
          ⟨"1.0.0", true⟩⟩
        ⟨"host2", 10801, ⟨"2.0.0", true⟩, true, true, true, true, true⟩
        false (SyncOutcome.igniteErr "boom") 0).socketTouched = false) :=
  ⟨by decide,
    establish_already_connected
      ⟨true, ⟨"host1", 10800, ⟨"1.0.0", true⟩, false, false, false, false, false⟩,
        ⟨"1.0.0", true⟩⟩
      ⟨"host2", 10801, ⟨"2.0.0", true⟩, true, true, true, true, true⟩
      false (SyncOutcome.igniteErr "boom") 0 (by decide)⟩

/-- C2 counterexample: the claim says a double establish performs no state
change including the stored configuration; in fact the stored configuration
is overwritten with the new argument before the `AlreadyConnected` guard, so
after the failing call it differs from the one stored before the call. -/
theorem establish_already_connected_counterexample :
    (Connection.InternalEstablish
        ⟨true, ⟨"host1", 10800, ⟨"1.0.0", true⟩, false, false, false, false, false⟩,
          ⟨"1.0.0", true⟩⟩
        ⟨"host2", 10801, ⟨"2.0.0", true⟩, true, true, true, true, true⟩
        false (SyncOutcome.igniteErr "boom") 0).diag
      = some (SqlState.S08002_ALREADY_CONNECTED, "Already connected.") ∧
    (Connection.InternalEstablish
        ⟨true, ⟨"host1", 10800, ⟨"1.0.0", true⟩, false, false, false, false, false⟩,
          ⟨"1.0.0", true⟩⟩
        ⟨"host2", 10801, ⟨"2.0.0", true⟩, true, true, true, true, true⟩
        false (SyncOutcome.igniteErr "boom") 0).conn.config
      ≠ ⟨"host1", 10800, ⟨"1.0.0", true⟩, false, false, false, false, false⟩ := by
  decide

/-- The unsupported-version branch of the handshake: the error is reported
before any byte is sent. -/
theorem makeRequestHandshake_unsupported (cfg : Configuration) (sync : SyncOutcome) (n : Nat)
    (hsup : cfg.protocolVersion.supported = false) :
    Connection.MakeRequestHandshake cfg sync n
      = ⟨SqlResult.AI_ERROR,
          some (SqlState.S01S00_INVALID_CONNECTION_STRING_ATTRIBUTE,
            "Protocol version is not supported: " ++ cfg.protocolVersion.str), 0⟩ := by
  simp only [Connection.MakeRequestHandshake]
  rw [if_pos hsup]

/-- C8: establishing from a disconnected state with a configuration whose
protocol version is outside the supported set (and a socket whose connect
succeeds) fails with `InvalidConnectionStringAttribute` naming the version,
with zero bytes sent on the socket. -/
theorem establish_unsupported_version (st : Conn) (cfg : Configuration)
    (sync : SyncOutcome) (n : Nat)
    (hdisc : st.connected = false) (hsup : cfg.protocolVersion.supported = false) :
    (Connection.InternalEstablish st cfg true sync n).res = SqlResult.AI_ERROR ∧
    (Connection.InternalEstablish st cfg true sync n).diag
      = some (SqlState.S01S00_INVALID_CONNECTION_STRING_ATTRIBUTE,
          "Protocol version is not supported: " ++ cfg.protocolVersion.str) ∧
    (Connection.InternalEstablish st cfg true sync n).sentBytes = 0 ∧
    (Connection.InternalEstablish st cfg true sync n).conn.connected = false := by
  have hm := makeRequestHandshake_unsupported cfg sync n hsup
  have hm1 : (Connection.MakeRequestHandshake cfg sync n).res = SqlResult.AI_ERROR := by
    rw [hm]
  have hm2 : (Connection.MakeRequestHandshake cfg sync n).diag
      = some (SqlState.S01S00_INVALID_CONNECTION_STRING_ATTRIBUTE,
          "Protocol version is not supported: " ++ cfg.protocolVersion.str) := by
    rw [hm]
  have hm3 : (Connection.MakeRequestHandshake cfg sync n).sentBytes = 0 := by rw [hm]
  have h1 : ¬(({ st with config := cfg } : Conn).connected = true) := by
    show ¬(st.connected = true)
    simp [hdisc]
  simp only [Connection.InternalEstablish]
  rw [if_neg h1]
  rw [if_neg (by decide : ¬(true = false))]
  rw [hm1, hm2, hm3]
  rw [if_pos (rfl : SqlResult.AI_ERROR = SqlResult.AI_ERROR)]
  exact ⟨rfl, rfl, rfl, rfl⟩

/-- C8 witness: version `9.9.9` marked unsupported is rejected before any
send. -/
theorem establish_unsupported_version_witness :
    (⟨false, ⟨"h", 1, ⟨"1.0.0", true⟩, false, false, false, false, false⟩,
        ⟨"1.0.0", true⟩⟩ : Conn).connected = false ∧
    (⟨"h", 1, ⟨"9.9.9", false⟩, false, false, false, false, false⟩ :
        Configuration).protocolVersion.supported = false ∧
    ((Connection.InternalEstablish
        ⟨false, ⟨"h", 1, ⟨"1.0.0", true⟩, false, false, false, false, false⟩,
          ⟨"1.0.0", true⟩⟩
        ⟨"h", 1, ⟨"9.9.9", false⟩, false, false, false, false, false⟩
        true (SyncOutcome.igniteErr "x") 7).res = SqlResult.AI_ERROR ∧
      (Connection.InternalEstablish
        ⟨false, ⟨"h", 1, ⟨"1.0.0", true⟩, false, false, false, false, false⟩,
          ⟨"1.0.0", true⟩⟩
        ⟨"h", 1, ⟨"9.9.9", false⟩, false, false, false, false, false⟩
        true (SyncOutcome.igniteErr "x") 7).diag
        = some (SqlState.S01S00_INVALID_CONNECTION_STRING_ATTRIBUTE,
            "Protocol version is not supported: "
              ++ (⟨"h", 1, ⟨"9.9.9", false⟩, false, false, false, false, false⟩ :
                Configuration).protocolVersion.str) ∧
      (Connection.InternalEstablish
        ⟨false, ⟨"h", 1, ⟨"1.0.0", true⟩, false, false, false, false, false⟩,
          ⟨"1.0.0", true⟩⟩
        ⟨"h", 1, ⟨"9.9.9", false⟩, false, false, false, false, false⟩
        true (SyncOutcome.igniteErr "x") 7).sentBytes = 0 ∧
      (Connection.InternalEstablish
        ⟨false, ⟨"h", 1, ⟨"1.0.0", true⟩, false, false, false, false, false⟩,
          ⟨"1.0.0", true⟩⟩
        ⟨"h", 1, ⟨"9.9.9", false⟩, false, false, false, false, false⟩
        true (SyncOutcome.igniteErr "x") 7).conn.connected = false) :=
  ⟨by decide, by decide,
    establish_unsupported_version
      ⟨false, ⟨"h", 1, ⟨"1.0.0", true⟩, false, false, false, false, false⟩,
        ⟨"1.0.0", true⟩⟩
      ⟨"h", 1, ⟨"9.9.9", false⟩, false, false, false, false, false⟩
      (SyncOutcome.igniteErr "x") 7 (by decide) (by decide)⟩

/-- The rejection branch of the handshake yields `ConnectionRejected` with the
composed message. -/
theorem makeRequestHandshake_rejected (cfg : Configuration) (rsp : HandshakeResponse) (n : Nat)
    (hsup : cfg.protocolVersion.supported = true) (hrej : rsp.accepted = false) :
    Connection.MakeRequestHandshake cfg (SyncOutcome.ok rsp) n
      = ⟨SqlResult.AI_ERROR,
          some (SqlState.S08004_CONNECTION_REJECTED, handshakeRejectMessage rsp cfg), n⟩ := by
  simp only [Connection.MakeRequestHandshake]
  rw [if_neg (show ¬(cfg.protocolVersion.supported = false) by simp [hsup])]
  rw [if_pos hrej]

/-- C7: when the handshake response is a rejection, establish fails with
`ConnectionRejected` and the composed diagnostic message contains the
attempted protocol version string, the server's reported version string, and
(when non-empty) the server-reported error text. -/
theorem handshake_rejected_message (st : Conn) (cfg : Configuration)
    (rsp : HandshakeResponse) (n : Nat)
    (hdisc : st.connected = false) (hsup : cfg.protocolVersion.supported = true)
    (hrej : rsp.accepted = false) :
    (Connection.InternalEstablish st cfg true (SyncOutcome.ok rsp) n).res
      = SqlResult.AI_ERROR ∧
    (Connection.InternalEstablish st cfg true (SyncOutcome.ok rsp) n).diag
      = some (SqlState.S08004_CONNECTION_REJECTED, handshakeRejectMessage rsp cfg) ∧
    containsS (handshakeRejectMessage rsp cfg) cfg.protocolVersion.str ∧
    containsS (handshakeRejectMessage rsp cfg) rsp.currentVer.str ∧
    (rsp.error ≠ "" → containsS (handshakeRejectMessage rsp cfg) rsp.error) := by
  have hm := makeRequestHandshake_rejected cfg rsp n hsup hrej
  have hm1 : (Connection.MakeRequestHandshake cfg (SyncOutcome.ok rsp) n).res
      = SqlResult.AI_ERROR := by rw [hm]
  have hm2 : (Connection.MakeRequestHandshake cfg (SyncOutcome.ok rsp) n).diag
      = some (SqlState.S08004_CONNECTION_REJECTED, handshakeRejectMessage rsp cfg) := by
    rw [hm]
  have h1 : ¬(({ st with config := cfg } : Conn).connected = true) := by
    show ¬(st.connected = true)
    simp [hdisc]
  refine ⟨?_, ?_, ?_, ?_, ?_⟩
  · simp only [Connection.InternalEstablish]
    rw [if_neg h1]
    rw [if_neg (by decide : ¬(true = false))]
    rw [hm1]
    rw [if_pos (rfl : SqlResult.AI_ERROR = SqlResult.AI_ERROR)]
  · simp only [Connection.InternalEstablish]
    rw [if_neg h1]
    rw [if_neg (by decide : ¬(true = false))]
    rw [hm1, hm2]
    rw [if_pos (rfl : SqlResult.AI_ERROR = SqlResult.AI_ERROR)]
  · exact ⟨("Node rejected handshake message. ").data
        ++ (if rsp.error = "" then "" else "Additional info: " ++ rsp.error ++ " ").data
        ++ ("Current node Apache Ignite version: ").data
        ++ rsp.currentVer.str.data
        ++ (", ").data
        ++ ("driver protocol version introduced in version: ").data,
      (".").data,
      by simp [handshakeRejectMessage, String.data_append, List.append_assoc]⟩
  · exact ⟨("Node rejected handshake message. ").data
        ++ (if rsp.error = "" then "" else "Additional info: " ++ rsp.error ++ " ").data
        ++ ("Current node Apache Ignite version: ").data,
      (", ").data ++ ("driver protocol version introduced in version: ").data
        ++ cfg.protocolVersion.str.data ++ (".").data,
      by simp [handshakeRejectMessage, String.data_append, List.append_assoc]⟩
  · intro herr
    exact ⟨("Node rejected handshake message. ").data ++ ("Additional info: ").data,
      (" ").data ++ ("Current node Apache Ignite version: ").data
        ++ rsp.currentVer.str.data ++ (", ").data
        ++ ("driver protocol version introduced in version: ").data
        ++ cfg.protocolVersion.str.data ++ (".").data,
      by simp [handshakeRejectMessage, herr, String.data_append, List.append_assoc]⟩

/-- C7 witness: response `{accepted := false, error := "incompatible",
currentVer := "2.0.0"}` against an attempted version `"1.0.0"`. -/
theorem handshake_rejected_message_witness :
    (⟨false, ⟨"h", 1, ⟨"3.0.0", true⟩, false, false, false, false, false⟩,
        ⟨"3.0.0", true⟩⟩ : Conn).connected = false ∧
    (⟨"h", 1, ⟨"1.0.0", true⟩, false, false, false, false, false⟩ :
        Configuration).protocolVersion.supported = true ∧
    (⟨false, "incompatible", ⟨"2.0.0", true⟩⟩ : HandshakeResponse).accepted = false ∧
    ((Connection.InternalEstablish
        ⟨false, ⟨"h", 1, ⟨"3.0.0", true⟩, false, false, false, false, false⟩,
          ⟨"3.0.0", true⟩⟩
        ⟨"h", 1, ⟨"1.0.0", true⟩, false, false, false, false, false⟩
        true (SyncOutcome.ok ⟨false, "incompatible", ⟨"2.0.0", true⟩⟩) 9).res
        = SqlResult.AI_ERROR ∧
      (Connection.InternalEstablish
        ⟨false, ⟨"h", 1, ⟨"3.0.0", true⟩, false, false, false, false, false⟩,
          ⟨"3.0.0", true⟩⟩
        ⟨"h", 1, ⟨"1.0.0", true⟩, false, false, false, false, false⟩
        true (SyncOutcome.ok ⟨false, "incompatible", ⟨"2.0.0", true⟩⟩) 9).diag
        = some (SqlState.S08004_CONNECTION_REJECTED,
            handshakeRejectMessage ⟨false, "incompatible", ⟨"2.0.0", true⟩⟩
              ⟨"h", 1, ⟨"1.0.0", true⟩, false, false, false, false, false⟩) ∧
      containsS (handshakeRejectMessage ⟨false, "incompatible", ⟨"2.0.0", true⟩⟩
          ⟨"h", 1, ⟨"1.0.0", true⟩, false, false, false, false, false⟩)
        (⟨"h", 1, ⟨"1.0.0", true⟩, false, false, false, false, false⟩ :
          Configuration).protocolVersion.str ∧
      containsS (handshakeRejectMessage ⟨false, "incompatible", ⟨"2.0.0", true⟩⟩
          ⟨"h", 1, ⟨"1.0.0", true⟩, false, false, false, false, false⟩)
        (⟨false, "incompatible", ⟨"2.0.0", true⟩⟩ : HandshakeResponse).currentVer.str ∧
      ((⟨false, "incompatible", ⟨"2.0.0", true⟩⟩ : HandshakeResponse).error ≠ "" →
        containsS (handshakeRejectMessage ⟨false, "incompatible", ⟨"2.0.0", true⟩⟩
            ⟨"h", 1, ⟨"1.0.0", true⟩, false, false, false, false, false⟩)
          (⟨false, "incompatible", ⟨"2.0.0", true⟩⟩ : HandshakeResponse).error)) :=
  ⟨by decide, by decide, by decide,
    handshake_rejected_message
      ⟨false, ⟨"h", 1, ⟨"3.0.0", true⟩, false, false, false, false, false⟩,
        ⟨"3.0.0", true⟩⟩
      ⟨"h", 1, ⟨"1.0.0", true⟩, false, false, false, false, false⟩
      ⟨false, "incompatible", ⟨"2.0.0", true⟩⟩ 9 (by decide) (by decide) (by decide)⟩

/-- C9: the liveness attribute `SQL_ATTR_CONNECTION_DEAD` is read-only —
setting it fails with `OptionTypeOutOfRange` for every value; every other
attribute id fails both `SetAttribute` and `GetAttribute` (with a caller
buffer supplied) with `OptionalFeatureNotImplemented`; and getting the
liveness attribute while connected reports the alive value `SQL_CD_FALSE`. -/
theorem connection_attributes (value : Int) (connected : Bool) (attr : Int)
    (h : attr ≠ SQL_ATTR_CONNECTION_DEAD) :
    (Connection.InternalSetAttribute SQL_ATTR_CONNECTION_DEAD value).1
      = SqlResult.AI_ERROR ∧
    (Connection.InternalSetAttribute SQL_ATTR_CONNECTION_DEAD value).2
      = some (SqlState.SHY092_OPTION_TYPE_OUT_OF_RANGE, "Attribute is read only.") ∧
    (Connection.InternalSetAttribute attr value).1 = SqlResult.AI_ERROR ∧
    (Connection.InternalSetAttribute attr value).2
      = some (SqlState.SHYC00_OPTIONAL_FEATURE_NOT_IMPLEMENTED,
          "Specified attribute is not supported.") ∧
    (Connection.InternalGetAttribute connected attr true true).res = SqlResult.AI_ERROR ∧
    (Connection.InternalGetAttribute connected attr true true).diag
      = some (SqlState.SHYC00_OPTIONAL_FEATURE_NOT_IMPLEMENTED,
          "Specified attribute is not supported.") ∧
    (Connection.InternalGetAttribute true SQL_ATTR_CONNECTION_DEAD true true).res
      = SqlResult.AI_SUCCESS ∧
    (Connection.InternalGetAttribute true SQL_ATTR_CONNECTION_DEAD true true).value
      = some SQL_CD_FALSE := by
  refine ⟨?_, ?_, ?_, ?_, ?_, ?_, ?_, ?_⟩ <;>
    simp [Connection.InternalSetAttribute, Connection.InternalGetAttribute, h]

/-- C9 witness: attribute id `0` as the unsupported id, value `5`, both
connection states exercised. -/
theorem connection_attributes_witness :
    (0 : Int) ≠ SQL_ATTR_CONNECTION_DEAD ∧
    ((Connection.InternalSetAttribute SQL_ATTR_CONNECTION_DEAD 5).1
        = SqlResult.AI_ERROR ∧
      (Connection.InternalSetAttribute SQL_ATTR_CONNECTION_DEAD 5).2
        = some (SqlState.SHY092_OPTION_TYPE_OUT_OF_RANGE, "Attribute is read only.") ∧
      (Connection.InternalSetAttribute 0 5).1 = SqlResult.AI_ERROR ∧
      (Connection.InternalSetAttribute 0 5).2
        = some (SqlState.SHYC00_OPTIONAL_FEATURE_NOT_IMPLEMENTED,
            "Specified attribute is not supported.") ∧
      (Connection.InternalGetAttribute false 0 true true).res = SqlResult.AI_ERROR ∧
      (Connection.InternalGetAttribute false 0 true true).diag
        = some (SqlState.SHYC00_OPTIONAL_FEATURE_NOT_IMPLEMENTED,
            "Specified attribute is not supported.") ∧
      (Connection.InternalGetAttribute true SQL_ATTR_CONNECTION_DEAD true true).res
        = SqlResult.AI_SUCCESS ∧
      (Connection.InternalGetAttribute true SQL_ATTR_CONNECTION_DEAD true true).value
        = some SQL_CD_FALSE) :=
  ⟨by decide, connection_attributes 5 false 0 (by decide)⟩

end IgniteOdbc
